import Mathlib

/-!
Verification development for the Agent Hawke anomaly engine.

The definitions below are a shallow embedding of the merged CRM + SIS
variant of the service (`src/unnamed/part_002`) together with the
`/write-decision` handler of `src/unnamed/part_000`.  JavaScript values
are modelled as follows: a possibly-absent string field is `Option String`
(with `none` for `undefined`/`null`); JavaScript number results that can
be `NaN` are `Option Int` (day counts) or `Option ℚ` (parsed floats),
with `none` standing for `NaN`; host primitives (`Date` parsing,
`parseFloat`) are oracle functions carried in a `JSEnv` record, since
their behaviour is native and not part of the repository.  Network
effects are made explicit: rule evaluation receives the activity list an
oracle would return and additionally reports how many activity fetches
it performed, and the scan orchestrator returns the write-back and
summarizer effects it attempted alongside the HTTP response.
-/

namespace Hawke

/-- JavaScript truthiness of a possibly-absent string: `undefined`, `null`
and the empty string are falsy. -/
def jsTruthyS : Option String → Bool
  | none => false
  | some s => s ≠ ""

/-- JavaScript `x || null` on a possibly-absent string: collapses the
falsy empty string to `null`. -/
def jsOrStr : Option String → Option String
  | none => none
  | some s => if s = "" then none else some s

/-- JavaScript `x > k` where `x` is a number that may be `NaN`
(modelled as `none`): every comparison with `NaN` is false. -/
def jsGtI (x : Option Int) (k : Int) : Bool :=
  match x with
  | none => false
  | some n => k < n

/-- JavaScript `x > k` for a parsed float that may be `NaN`. -/
def jsGtQ (x : Option ℚ) (k : ℚ) : Bool :=
  match x with
  | none => false
  | some q => k < q

/-- Template-literal rendering of a day count that may be `NaN`. -/
def jsIntStr : Option Int → String
  | none => "NaN"
  | some n => toString n

/-- Template-literal rendering of a string field that may be `null`. -/
def jsStrOrNull : Option String → String
  | none => "null"
  | some s => s

/-- Template-literal rendering of an integer field that may be `null`. -/
def jsIntOrNull : Option Int → String
  | none => "null"
  | some n => toString n

/-- Decimal rendering of a parsed float through `toFixed(2)`.  The exact
host decimal formatting is native behaviour; it is modelled by the canonical
rational rendering, which no claim inspects. -/
def toFixed2 : Option ℚ → String
  | none => "NaN"
  | some q => toString q

/-- JavaScript `s.trim()`: strip leading and trailing whitespace
(defined by structural recursion over the character list). -/
def jsTrim (s : String) : String :=
  String.mk (((s.data.dropWhile Char.isWhitespace).reverse.dropWhile
    Char.isWhitespace).reverse)

/-- Whether `pat` occurs as a contiguous sublist of `l`. -/
def listHasInfix (pat : List Char) : List Char → Bool
  | [] => pat.isPrefixOf []
  | c :: rest => pat.isPrefixOf (c :: rest) || listHasInfix pat rest

/-- JavaScript `s.includes(pat)`: substring containment. -/
def jsIncludes (s pat : String) : Bool :=
  listHasInfix pat.toList s.toList

/-- Host environment of one evaluation: the wall-clock time in epoch
milliseconds and the native parsing primitives.  `parseDate s = none`
models `new Date(s)` being an Invalid Date, `parseFloat s = none` models
`parseFloat(s)` returning `NaN`. -/
structure JSEnv where
  nowMs : Int
  parseDate : String → Option Int
  parseFloat : String → Option ℚ

/-- `daysBetween` from `src/unnamed/part_002` lines 90-95 (identically in
`src/index.js` lines 63-68): absent or empty input returns 0; otherwise
`Math.floor((today - past) / 86400000)`.  When the string does not parse,
`today - past` is `NaN` and `Math.floor(NaN)` is `NaN`, so the result is
`none`. -/
def daysBetween (env : JSEnv) (dateString : Option String) : Option Int :=
  match dateString with
  | none => some 0
  | some s =>
    if s = "" then some 0
    else
      match env.parseDate s with
      | none => none
      | some past => some (Int.fdiv (env.nowMs - past) 86400000)

/-! ## Configuration constants (`src/unnamed/part_002` lines 47-84) -/

def LEAD_TYPE_STUDENT : String := "OT_2"

def TARGET_STAGES : List String :=
  ["Engagement Initiated", "Application Pending", "Application Completed"]

def HIGH_INTENT_SOURCES : List String :=
  ["B2B Referral", "Website", "Chatbot", "Inbound Phone Call", "Pay per Click Ads"]

def COUNSELOR_KEYWORDS : List String :=
  ["Inbound Phone Call Activity", "Outbound Phone Call Activity",
   "Invorto Call Qualification", "Meeting", "Flostack Appointment"]

def ENGAGEMENT_KEYWORDS : List String :=
  ["Email Opened", "Email Link Clicked", "Dynamic Form Submission",
   "Inbound Phone Call Activity", "Outbound Phone Call Activity",
   "Logged into Portal", "Logged out of Portal", "Flostack Appointment",
   "Invorto Call Qualification", "Meeting"]

/-! ## Data model -/

/-- Anomaly severity; the engine only ever produces these three values. -/
inductive Severity
  | Critical
  | High
  | Medium
deriving DecidableEq

/-- Origin tag of an anomaly (`source: "CRM"` / `source: "SIS"`). -/
inductive Origin
  | CRM
  | SIS
deriving DecidableEq

/-- An anomaly value as constructed by the rule functions. -/
structure Anomaly where
  type : String
  severity : Severity
  confidence : Nat
  source : Origin
  explanation : String
deriving DecidableEq

/-- A flattened CRM lead (the fields requested by `fetchStudentsByStage`,
after `flattenLead`).  `mx_Last_Intelligence_Run` is the durable CRM
field that each write-back overwrites; it is carried here to express
that rule evaluation never reads it. -/
structure Lead where
  ProspectID : String
  FirstName : Option String
  LastName : Option String
  EmailAddress : Option String
  ProspectStage : Option String
  LeadType : Option String
  Source : Option String
  mx_Stage_Entered_On : Option String
  mx_Offer_Given_Date : Option String
  mx_Last_Intelligence_Run : Option String
deriving DecidableEq

/-- One row of the Mavis SIS table. -/
structure SISRow where
  prospect_id : Option String
  student_id : Option String
  enrollment_status : Option String
  admit_term : Option String
  current_term : Option String
  academic_standing : Option String
  credits_earned : Option Int
  expected_graduation_date : Option String
  tuition_balance : Option String
  financial_aid_status : Option String
  scholarship_amount : Option String
  last_updated_timestamp : Option String
deriving DecidableEq

/-- The merged per-lead record built by `mergeCRMandSIS`. -/
structure Merged where
  prospectId : String
  name : String
  email : Option String
  crmStage : String
  crmSource : String
  stageEnteredOn : Option String
  offerGivenDate : Option String
  daysInStage : Option Int
  offerAge : Option Int
  hasSIS : Bool
  studentId : Option String
  enrollmentStatus : Option String
  admitTerm : Option String
  currentTerm : Option String
  academicStanding : Option String
  creditsEarned : Option Int
  expectedGraduation : Option String
  tuitionBalance : Option ℚ
  financialAidStatus : Option String
  scholarshipAmount : Option ℚ
  sisLastUpdated : Option String
deriving DecidableEq

/-- `parseFloat(field || 0)`: a falsy field gives `parseFloat(0) = 0`,
otherwise the host float parser runs on the string. -/
def parseFloatOrZero (env : JSEnv) (field : Option String) : Option ℚ :=
  match jsOrStr field with
  | none => some 0
  | some s => env.parseFloat s

/-- `mergeCRMandSIS` from `src/unnamed/part_002` lines 308-334. -/
def mergeCRMandSIS (env : JSEnv) (lead : Lead) (sisRecord : Option SISRow) : Merged :=
  { prospectId := lead.ProspectID
    name := jsTrim ((lead.FirstName.getD "") ++ " " ++ (lead.LastName.getD ""))
    email := jsOrStr lead.EmailAddress
    crmStage := jsTrim (lead.ProspectStage.getD "")
    crmSource := jsTrim (lead.Source.getD "")
    stageEnteredOn := lead.mx_Stage_Entered_On
    offerGivenDate := lead.mx_Offer_Given_Date
    daysInStage := daysBetween env lead.mx_Stage_Entered_On
    offerAge := daysBetween env lead.mx_Offer_Given_Date
    hasSIS := sisRecord.isSome
    studentId := jsOrStr (sisRecord.bind SISRow.student_id)
    enrollmentStatus := jsOrStr (sisRecord.bind SISRow.enrollment_status)
    admitTerm := jsOrStr (sisRecord.bind SISRow.admit_term)
    currentTerm := jsOrStr (sisRecord.bind SISRow.current_term)
    academicStanding := jsOrStr (sisRecord.bind SISRow.academic_standing)
    creditsEarned := sisRecord.bind SISRow.credits_earned
    expectedGraduation := jsOrStr (sisRecord.bind SISRow.expected_graduation_date)
    tuitionBalance := parseFloatOrZero env (sisRecord.bind SISRow.tuition_balance)
    financialAidStatus := jsOrStr (sisRecord.bind SISRow.financial_aid_status)
    scholarshipAmount := parseFloatOrZero env (sisRecord.bind SISRow.scholarship_amount)
    sisLastUpdated := jsOrStr (sisRecord.bind SISRow.last_updated_timestamp) }

/-- A CRM activity record; only `EventName` is consulted by the rules. -/
structure Activity where
  EventName : Option String
deriving DecidableEq

/-- `activities.some(a => KEYWORDS.some(kw => (a.EventName || "").includes(kw)))`. -/
def hasKeywordActivity (acts : List Activity) (kws : List String) : Bool :=
  acts.any fun a => kws.any fun kw => jsIncludes (a.EventName.getD "") kw

/-! ## CRM rule pipeline (`src/unnamed/part_002` lines 340-407)

The source short-circuits with `return` at the first matching rule.
Besides the optional anomaly, the embedding returns the number of
activity fetches (`fetchActivities` calls) the evaluation performed. -/

def offerStalledAnomaly (m : Merged) : Anomaly :=
  { type := "Offer Stalled"
    severity := .High
    confidence := 90
    source := .CRM
    explanation := "Offer given " ++ jsIntStr m.offerAge ++ " days ago but student not enrolled." }

def noCounselorAnomaly (m : Merged) : Anomaly :=
  { type := "Application Completed – No Counselor Follow-up"
    severity := .High
    confidence := 88
    source := .CRM
    explanation := "No counselor activity " ++ jsIntStr m.daysInStage ++ " days after application completion." }

def pendingStalledAnomaly (m : Merged) : Anomaly :=
  { type := "Application Pending – Stalled"
    severity := .Medium
    confidence := 85
    source := .CRM
    explanation := "No engagement activity " ++ jsIntStr m.daysInStage ++ " days in Application Pending." }

def highIntentAnomaly (m : Merged) : Anomaly :=
  { type := "High Intent – No Movement"
    severity := .Medium
    confidence := 82
    source := .CRM
    explanation := "High intent source but no stage movement for " ++ jsIntStr m.daysInStage ++ " days." }

/-- Rule 4 (High Intent – No Movement); `fetches` threads the count of
activity fetches already performed. -/
def crmRule4 (m : Merged) (fetches : Nat) : Option Anomaly × Nat :=
  if m.crmStage == "Engagement Initiated" && HIGH_INTENT_SOURCES.contains m.crmSource
      && jsGtI m.daysInStage 7 then
    (some (highIntentAnomaly m), fetches)
  else
    (none, fetches)

/-- Rule 3 (Application Pending – Stalled), falling through to rule 4. -/
def crmRule3 (m : Merged) (acts : List Activity) (fetches : Nat) : Option Anomaly × Nat :=
  if m.crmStage == "Application Pending" && jsGtI m.daysInStage 7 then
    if hasKeywordActivity acts ENGAGEMENT_KEYWORDS then
      crmRule4 m (fetches + 1)
    else
      (some (pendingStalledAnomaly m), fetches + 1)
  else
    crmRule4 m fetches

/-- Rule 2 (Application Completed – No Counselor Follow-up), falling
through to rules 3 and 4. -/
def crmRule2 (m : Merged) (acts : List Activity) : Option Anomaly × Nat :=
  if m.crmStage == "Application Completed" && jsGtI m.daysInStage 5 then
    if hasKeywordActivity acts COUNSELOR_KEYWORDS then
      crmRule3 m acts 1
    else
      (some (noCounselorAnomaly m), 1)
  else
    crmRule3 m acts 0

/-- `detectCRMAnomalies`: the four CRM rules in priority order, returning
the first match together with the number of activity fetches made.
`acts` is the (stable) result the activity oracle returns for this lead. -/
def detectCRMAnomalies (m : Merged) (acts : List Activity) : Option Anomaly × Nat :=
  if jsTruthyS m.offerGivenDate && !(m.crmStage == "Enrolled") && jsGtI m.offerAge 14 then
    (some (offerStalledAnomaly m), 0)
  else
    crmRule2 m acts

/-! ## SIS rule pipeline (`src/unnamed/part_002` lines 413-504) -/

def activeCRMStages : List String :=
  ["Engagement Initiated", "Application Pending", "Application Completed", "Enrolled"]

/-- Guard of SIS rule 5 (Enrollment Status Mismatch — Withdrawn). -/
def sisRule5Cond (m : Merged) : Bool :=
  m.enrollmentStatus == some "Withdrawn" && activeCRMStages.contains m.crmStage

/-- Guard of SIS rule 6 (Enrollment Status Mismatch — Admitted). -/
def sisRule6Cond (m : Merged) : Bool :=
  jsTruthyS m.studentId
    && (m.enrollmentStatus == some "Active" || m.enrollmentStatus == some "Admitted")
    && m.crmStage == "Application Completed"

def withdrawnMismatchAnomaly (m : Merged) : Anomaly :=
  { type := "Enrollment Status Mismatch"
    severity := .Critical
    confidence := 95
    source := .SIS
    explanation := "SIS shows Withdrawn but CRM stage is \"" ++ m.crmStage
      ++ "\". Immediate CRM update needed." }

def admittedMismatchAnomaly (m : Merged) : Anomaly :=
  { type := "Enrollment Status Mismatch – Admitted"
    severity := .High
    confidence := 92
    source := .SIS
    explanation := "SIS has student ID " ++ jsStrOrNull m.studentId ++ " and status \""
      ++ jsStrOrNull m.enrollmentStatus ++ "\" but CRM is still at Application Completed." }

def highTuitionAnomaly (m : Merged) : Anomaly :=
  { type := "High Tuition Balance"
    severity :=
      if m.financialAidStatus == some "Denied" then .Critical
      else if jsGtQ m.tuitionBalance 5000 then .High
      else .Medium
    confidence := 88
    source := .SIS
    explanation := "$" ++ toFixed2 m.tuitionBalance ++ " balance. Aid status: "
      ++ jsStrOrNull m.financialAidStatus ++ ". Scholarship: $"
      ++ toFixed2 m.scholarshipAmount ++ "." }

def academicStandingAnomaly (m : Merged) : Anomaly :=
  { type := "Academic " ++ jsStrOrNull m.academicStanding
    severity := if m.academicStanding == some "Suspension" then .Critical else .High
    confidence := 85
    source := .SIS
    explanation := "Student on " ++ jsStrOrNull m.academicStanding ++ " with "
      ++ jsIntOrNull m.creditsEarned ++ " credits earned." }

def zeroProgressAnomaly (m : Merged) : Anomaly :=
  { type := "Zero Progress – Active Student"
    severity := .High
    confidence := 87
    source := .SIS
    explanation := "Enrolled for " ++ jsStrOrNull m.currentTerm
      ++ " but 0 credits earned. May have stopped attending." }

/-- `detectSISAnomalies`: the five SIS rules in priority order; `none`
when no joined SIS record exists or no rule matches. -/
def detectSISAnomalies (m : Merged) : Option Anomaly :=
  if !m.hasSIS then none
  else if sisRule5Cond m then some (withdrawnMismatchAnomaly m)
  else if sisRule6Cond m then some (admittedMismatchAnomaly m)
  else if (m.enrollmentStatus == some "Enrolled" || m.enrollmentStatus == some "Active")
      && jsGtQ m.tuitionBalance 3000 then
    some (highTuitionAnomaly m)
  else if m.academicStanding == some "Probation" || m.academicStanding == some "Suspension" then
    some (academicStandingAnomaly m)
  else if m.enrollmentStatus == some "Enrolled" && m.creditsEarned == some 0
      && jsTruthyS m.currentTerm then
    some (zeroProgressAnomaly m)
  else none

/-- Severity of an optional anomaly (`crmAnomaly?.severity`). -/
def severityOpt : Option Anomaly → Option Severity
  | none => none
  | some a => some a.severity

/-- The primary-anomaly tie-break (`src/unnamed/part_002` lines 640-643):
`sisAnomaly && (sis Critical || (sis High && crm?.severity !== Critical))
? sisAnomaly : (crmAnomaly || sisAnomaly)`. -/
def primaryAnomaly (crmAnomaly sisAnomaly : Option Anomaly) : Option Anomaly :=
  let sisWins : Bool :=
    match sisAnomaly with
    | none => false
    | some s =>
      s.severity == .Critical
        || (s.severity == .High && !(severityOpt crmAnomaly == some .Critical))
  if sisWins then sisAnomaly
  else
    match crmAnomaly with
    | some c => some c
    | none => sisAnomaly

/-! ## Scan orchestrator (`src/unnamed/part_002` lines 589-701)

External collaborators appear as oracles in a `ScanEnv`.  `sisFetch` and
`leadFetch` are `Except` values because those HTTP calls can fail;
`activities` returns a plain list because `fetchActivities` catches its
own errors and falls back to `[]`.  `updateResult`/`logResult` are the
outcomes of the two write-back calls, whose errors the source catches
inside `updateLead`/`logAIDecision`.  `summarizerResult` is the
root-cause analysis after `analyzeWithOpenAI` (which catches every
failure, yielding `null`). -/

/-- The base fields spread into every reported anomaly entry. -/
structure LeadBase where
  leadId : String
  name : String
  email : Option String
  crmStage : String
  crmSource : String
  daysInStage : Option Int
  hasSIS : Bool
  enrollmentStatus : Option String
  academicStanding : Option String
  tuitionBalance : Option ℚ
deriving DecidableEq

/-- One entry of the reported `anomalies` array (`{...leadBase, ...anomaly}`). -/
structure ScanEntry where
  base : LeadBase
  anomaly : Anomaly
deriving DecidableEq

/-- An outward side effect the scan attempts. -/
inductive Effect
  | leadUpdate (leadId : String) (a : Anomaly)
  | logActivity (leadId : String) (a : Anomaly)
  | summarize (anomalyCount : Nat)
deriving DecidableEq

/-- Environment of one `/run-intelligence` request. -/
structure ScanEnv where
  js : JSEnv
  sisFetch : Except String (List SISRow)
  leadFetch : String → Except String (List Lead)
  activities : String → List Activity
  updateResult : String → Except String Unit
  logResult : String → Except String Unit
  hasOpenAIKey : Bool
  summarizerResult : Option String

/-- `fetchAllSISRecords` catches any Mavis failure and returns an empty
map, so a failed SIS fetch degrades to zero SIS rows. -/
def sisRowsOf (env : ScanEnv) : List SISRow :=
  match env.sisFetch with
  | .ok rows => rows
  | .error _ => []

/-- `sisMap[pid]`: rows with a truthy `prospect_id` are keyed by it, later
rows overwriting earlier ones, so a lookup returns the last such row. -/
def sisLookup (rows : List SISRow) (pid : String) : Option SISRow :=
  (rows.filter fun r => jsOrStr r.prospect_id == some pid).getLast?

/-- `fetchStudentsByStage`: the CRM call (which may fail) followed by the
student filter `l.LeadType === "OT_2"`. -/
def fetchStudentsByStage (env : ScanEnv) (stage : String) : Except String (List Lead) :=
  (env.leadFetch stage).map fun leads =>
    leads.filter fun l => l.LeadType == some LEAD_TYPE_STUDENT

/-- The sequential per-stage fetch loop of step 2; the first failing
stage aborts the whole fetch, as its exception is not caught. -/
def fetchAllStudents (env : ScanEnv) : Except String (List Lead) :=
  TARGET_STAGES.foldlM (fun acc stage =>
    (fetchStudentsByStage env stage).map (acc ++ ·)) []

def leadBaseOf (lead : Lead) (m : Merged) : LeadBase :=
  { leadId := lead.ProspectID
    name := m.name
    email := m.email
    crmStage := m.crmStage
    crmSource := m.crmSource
    daysInStage := m.daysInStage
    hasSIS := m.hasSIS
    enrollmentStatus := m.enrollmentStatus
    academicStanding := m.academicStanding
    tuitionBalance := m.tuitionBalance }

/-- `updateLead`: the write is attempted; a failure is caught and only
logged, so either outcome leaves exactly the attempt on record. -/
def updateLeadEffects (result : Except String Unit) (leadId : String) (a : Anomaly) :
    List Effect :=
  match result with
  | .ok _ => [.leadUpdate leadId a]
  | .error _ => [.leadUpdate leadId a]

/-- `logAIDecision`: same catch-and-continue shape as `updateLead`. -/
def logDecisionEffects (result : Except String Unit) (leadId : String) (a : Anomaly) :
    List Effect :=
  match result with
  | .ok _ => [.logActivity leadId a]
  | .error _ => [.logActivity leadId a]

/-- The body of the per-lead loop: join the SIS record, merge, run both
pipelines, write back the primary anomaly, and report both anomalies. -/
def processLead (env : ScanEnv) (sisRows : List SISRow) (lead : Lead) :
    List ScanEntry × List Effect :=
  let sisRecord := sisLookup sisRows lead.ProspectID
  let m := mergeCRMandSIS env.js lead sisRecord
  let base := leadBaseOf lead m
  let crmAnomaly := (detectCRMAnomalies m (env.activities lead.ProspectID)).1
  let sisAnomaly := detectSISAnomalies m
  let primary := primaryAnomaly crmAnomaly sisAnomaly
  let writeEffects :=
    match primary with
    | some a =>
      updateLeadEffects (env.updateResult lead.ProspectID) lead.ProspectID a
        ++ logDecisionEffects (env.logResult lead.ProspectID) lead.ProspectID a
    | none => []
  let entries :=
    (crmAnomaly.map fun a => ScanEntry.mk base a).toList
      ++ (sisAnomaly.map fun a => ScanEntry.mk base a).toList
  (entries, writeEffects)

/-- The sequential scan over all fetched student leads. -/
def scanLoop (env : ScanEnv) (sisRows : List SISRow) : List Lead → List ScanEntry × List Effect
  | [] => ([], [])
  | lead :: rest =>
    let first := processLead env sisRows lead
    let later := scanLoop env sisRows rest
    (first.1 ++ later.1, first.2 ++ later.2)

/-- The JSON report of a successful scan (derived summary fields such as
`by_severity`, `by_source`, the SIS match rate and timings are computed
from `entries` and the environment and are omitted here). -/
structure ScanReport where
  message : String
  total_leads_scanned : Nat
  anomalies_detected : Nat
  entries : List ScanEntry
  ai_analysis : Option String
deriving DecidableEq

inductive RunOutcome
  | ok (report : ScanReport)
  | err500 (detail : String)
deriving DecidableEq

/-- Whether an outcome is the 500 error response. -/
def RunOutcome.isServerError : RunOutcome → Bool
  | .ok _ => false
  | .err500 _ => true

structure RunResult where
  outcome : RunOutcome
  effects : List Effect
deriving DecidableEq

/-- The `/run-intelligence` handler: fetch SIS rows (failure degrades to
none), fetch student leads per stage (failure aborts with a 500), return
the empty report early when no students were found, otherwise scan every
lead and attempt the OpenAI analysis when an API key is configured and
anomalies exist. -/
def runIntelligence (env : ScanEnv) : RunResult :=
  let sisRows := sisRowsOf env
  match fetchAllStudents env with
  | .error e => { outcome := .err500 e, effects := [] }
  | .ok allStudents =>
    if allStudents.length = 0 then
      { outcome := .ok
          { message := "Hawke scanned — no student leads found"
            total_leads_scanned := 0
            anomalies_detected := 0
            entries := []
            ai_analysis := none }
        effects := [] }
    else
      let scanned := scanLoop env sisRows allStudents
      let entries := scanned.1
      let callSummarizer := env.hasOpenAIKey && !(entries.length == 0)
      { outcome := .ok
          { message := "Hawke scan complete"
            total_leads_scanned := allStudents.length
            anomalies_detected := entries.length
            entries := entries
            ai_analysis := if callSummarizer then env.summarizerResult else none }
        effects := scanned.2 ++ (if callSummarizer then [.summarize entries.length] else []) }

end Hawke

namespace HawkeV0

/-! ## `/write-decision` handler (`src/unnamed/part_000` lines 203-244) -/

/-- The request body `{leadId, decision, riskLevel, findings}`. -/
structure DecisionBody where
  leadId : Option String
  decision : Option String
  riskLevel : Option String
  findings : Option String
deriving DecidableEq

/-- The activity-creation request posted to the CRM. -/
structure CreateActivityReq where
  relatedProspectId : String
  note : String
  riskLevel : String
  findings : String
deriving DecidableEq

inductive WDResponse
  | badRequest (msg : String)
  | ok
  | serverError (msg : String)
deriving DecidableEq

/-- The handler: 400 when `leadId` or `decision` is falsy (nothing is
posted); otherwise the decision activity is posted and a failing post
surfaces as a 500 (the attempt was still made). -/
def writeDecision (body : DecisionBody) (postResult : Except String Unit) :
    WDResponse × List CreateActivityReq :=
  if !(Hawke.jsTruthyS body.leadId) || !(Hawke.jsTruthyS body.decision) then
    (.badRequest "leadId and decision are required", [])
  else
    let req : CreateActivityReq :=
      { relatedProspectId := body.leadId.getD ""
        note := "Agent Hawke Decision: " ++ body.decision.getD ""
        riskLevel := (Hawke.jsOrStr body.riskLevel).getD "Unknown"
        findings := body.findings.getD "" }
    match postResult with
    | .ok _ => (.ok, [req])
    | .error _ => (.serverError "Failed to write decision activity", [req])

end HawkeV0

namespace Hawke

/-! ## Concrete fixtures used by witnesses

`sampleEnv.parseDate` is a sample of the host date parser: it recognises
four ISO timestamps (20 days, 30 days, 6 days and 24 hours before
`nowMs = 2025-10-11T00:00:00Z`) and, like JavaScript, fails on anything
else. -/

def sampleEnv : JSEnv :=
  { nowMs := 1760140800000
    parseDate := fun s =>
      if s = "2025-09-21T00:00:00Z" then some 1758412800000
      else if s = "2025-09-11T00:00:00Z" then some 1757548800000
      else if s = "2025-10-05T00:00:00Z" then some 1759622400000
      else if s = "2025-10-10T00:00:00Z" then some 1760054400000
      else none
    parseFloat := fun s => if s = "4200" then some 4200 else none }

/-- A student lead at stage Application Pending whose offer is 20 days old. -/
def sampleLead : Lead :=
  { ProspectID := "p1"
    FirstName := some "Ada"
    LastName := some "Lovelace"
    EmailAddress := some "ada@example.edu"
    ProspectStage := some "Application Pending"
    LeadType := some "OT_2"
    Source := some "Website"
    mx_Stage_Entered_On := some "2025-09-21T00:00:00Z"
    mx_Offer_Given_Date := some "2025-09-21T00:00:00Z"
    mx_Last_Intelligence_Run := none }

/-- A joined SIS row showing the student as Withdrawn. -/
def sampleSIS : SISRow :=
  { prospect_id := some "p1"
    student_id := some "S1"
    enrollment_status := some "Withdrawn"
    admit_term := none
    current_term := none
    academic_standing := none
    credits_earned := some 10
    expected_graduation_date := none
    tuition_balance := some "4200"
    financial_aid_status := none
    scholarship_amount := none
    last_updated_timestamp := none }

def sampleMerged : Merged := mergeCRMandSIS sampleEnv sampleLead (some sampleSIS)

/-- An enrolled lead with a 30-day-old offer (explicit exclusion case). -/
def enrolledLead : Lead :=
  { sampleLead with
      ProspectID := "p2"
      ProspectStage := some "Enrolled"
      mx_Offer_Given_Date := some "2025-09-11T00:00:00Z" }

def enrolledMerged : Merged := mergeCRMandSIS sampleEnv enrolledLead none

/-- An enrolled-in-SIS student with a 4200 balance and no aid denial. -/
def tuitionSIS : SISRow :=
  { sampleSIS with enrollment_status := some "Enrolled" }

def tuitionLead : Lead :=
  { sampleLead with
      ProspectID := "p3"
      ProspectStage := some "Fresh Lead"
      mx_Offer_Given_Date := none
      mx_Stage_Entered_On := none }

def tuitionMerged : Merged := mergeCRMandSIS sampleEnv tuitionLead (some tuitionSIS)

/-! ## Shared structural lemmas about the rule pipelines -/

lemma crmRule4_fst_type (m : Merged) (f : Nat) (a : Anomaly)
    (h : (crmRule4 m f).1 = some a) : a = highIntentAnomaly m := by
  unfold crmRule4 at h
  split at h
  · simp at h
    exact h.symm
  · simp at h

lemma crmRule3_fst_type (m : Merged) (acts : List Activity) (f : Nat) (a : Anomaly)
    (h : (crmRule3 m acts f).1 = some a) :
    a = pendingStalledAnomaly m ∨ a = highIntentAnomaly m := by
  unfold crmRule3 at h
  split at h
  · split at h
    · exact Or.inr (crmRule4_fst_type m _ a h)
    · simp at h
      exact Or.inl h.symm
  · exact Or.inr (crmRule4_fst_type m _ a h)

lemma crmRule2_fst_type (m : Merged) (acts : List Activity) (a : Anomaly)
    (h : (crmRule2 m acts).1 = some a) :
    a = noCounselorAnomaly m ∨ a = pendingStalledAnomaly m ∨ a = highIntentAnomaly m := by
  unfold crmRule2 at h
  split at h
  · split at h
    · exact Or.inr (crmRule3_fst_type m acts _ a h)
    · simp at h
      exact Or.inl h.symm
  · exact Or.inr (crmRule3_fst_type m acts _ a h)

lemma detectCRM_fst_type (m : Merged) (acts : List Activity) (a : Anomaly)
    (h : (detectCRMAnomalies m acts).1 = some a) :
    a = offerStalledAnomaly m ∨ a = noCounselorAnomaly m ∨
      a = pendingStalledAnomaly m ∨ a = highIntentAnomaly m := by
  unfold detectCRMAnomalies at h
  split at h
  · simp at h
    exact Or.inl h.symm
  · exact Or.inr (crmRule2_fst_type m acts a h)

lemma detectCRM_source (m : Merged) (acts : List Activity) (a : Anomaly)
    (h : (detectCRMAnomalies m acts).1 = some a) : a.source = Origin.CRM := by
  rcases detectCRM_fst_type m acts a h with h' | h' | h' | h' <;> subst h' <;> rfl

lemma detectSIS_fst_type (m : Merged) (a : Anomaly)
    (h : detectSISAnomalies m = some a) :
    a = withdrawnMismatchAnomaly m ∨ a = admittedMismatchAnomaly m ∨
      a = highTuitionAnomaly m ∨ a = academicStandingAnomaly m ∨
      a = zeroProgressAnomaly m := by
  unfold detectSISAnomalies at h
  repeat' split at h
  all_goals simp at h
  · exact Or.inl h.symm
  · exact Or.inr (Or.inl h.symm)
  · exact Or.inr (Or.inr (Or.inl h.symm))
  · exact Or.inr (Or.inr (Or.inr (Or.inl h.symm)))
  · exact Or.inr (Or.inr (Or.inr (Or.inr h.symm)))

lemma detectSIS_source (m : Merged) (a : Anomaly)
    (h : detectSISAnomalies m = some a) : a.source = Origin.SIS := by
  rcases detectSIS_fst_type m a h with h' | h' | h' | h' | h' <;> subst h' <;> rfl

lemma crmRule2_fst_type_ne (m : Merged) (acts : List Activity) (a : Anomaly)
    (h : (crmRule2 m acts).1 = some a) : a.type ≠ "Offer Stalled" := by
  rcases crmRule2_fst_type m acts a h with h' | h' | h' <;> subst h' <;>
    simp [noCounselorAnomaly, pendingStalledAnomaly, highIntentAnomaly]

lemma countP_entry_pair (base : LeadBase) (crm sis : Option Anomaly)
    (hcrm : ∀ a, crm = some a → a.source = Origin.CRM)
    (hsis : ∀ a, sis = some a → a.source = Origin.SIS) :
    (((crm.map fun a => ScanEntry.mk base a).toList
        ++ (sis.map fun a => ScanEntry.mk base a).toList).countP
        fun e => e.anomaly.source == Origin.CRM) ≤ 1 ∧
    (((crm.map fun a => ScanEntry.mk base a).toList
        ++ (sis.map fun a => ScanEntry.mk base a).toList).countP
        fun e => e.anomaly.source == Origin.SIS) ≤ 1 := by
  cases crm with
  | none =>
    cases sis with
    | none => simp
    | some b =>
      have hb := hsis b rfl
      simp [List.countP_cons, hb]
  | some a =>
    have ha := hcrm a rfl
    cases sis with
    | none => simp [List.countP_cons, ha]
    | some b =>
      have hb := hsis b rfl
      simp [List.countP_cons, ha, hb]

/-- C1: in the merged variant the primary anomaly for CRM write-back is
the SIS anomaly when it is Critical, or when it is High and the CRM
anomaly is not Critical; otherwise the CRM anomaly; when only one
pipeline fires its anomaly is primary; and a Critical Enrollment Status
Mismatch SIS anomaly beats a High CRM anomaly. -/
theorem primaryAnomaly_tie_break :
    (∀ c s : Anomaly,
        primaryAnomaly (some c) (some s) =
          if s.severity = Severity.Critical then some s
          else if s.severity = Severity.High ∧ c.severity ≠ Severity.Critical then some s
          else some c) ∧
    (∀ c : Anomaly, primaryAnomaly (some c) none = some c) ∧
    (∀ s : Anomaly, primaryAnomaly none (some s) = some s) ∧
    (∀ c s : Anomaly, s.type = "Enrollment Status Mismatch" →
        s.severity = Severity.Critical → c.severity = Severity.High →
        primaryAnomaly (some c) (some s) = some s) := by
  refine ⟨?_, ?_, ?_, ?_⟩
  · intro c s
    cases hs : s.severity <;> cases hc : c.severity <;>
      simp [primaryAnomaly, severityOpt, hs, hc]
  · intro c
    simp [primaryAnomaly]
  · intro s
    cases hs : s.severity <;> simp [primaryAnomaly, severityOpt, hs]
  · intro c s _ hs hc
    simp [primaryAnomaly, severityOpt, hs, hc]

/-- C1 witness: for the sample lead the CRM pipeline fires Offer Stalled
(High) and the SIS pipeline fires the Critical mismatch; the latter is
primary. -/
theorem primaryAnomaly_tie_break_witness :
    primaryAnomaly (some (offerStalledAnomaly sampleMerged))
        (some (withdrawnMismatchAnomaly sampleMerged)) =
      some (withdrawnMismatchAnomaly sampleMerged) :=
  primaryAnomaly_tie_break.2.2.2 _ _ rfl rfl rfl

/-- C2: each origin produces at most one anomaly per lead per scan, and a
lead whose offer-stalled guard holds at stage Application Pending yields
exactly the Offer Stalled anomaly with no activity fetch (the
pending-stalled rule is never evaluated). -/
theorem ruleEval_short_circuit :
    (∀ (env : ScanEnv) (sisRows : List SISRow) (lead : Lead),
        ((processLead env sisRows lead).1.countP
            fun e => e.anomaly.source == Origin.CRM) ≤ 1 ∧
        ((processLead env sisRows lead).1.countP
            fun e => e.anomaly.source == Origin.SIS) ≤ 1) ∧
    (∀ (m : Merged) (acts : List Activity),
        jsTruthyS m.offerGivenDate = true → m.crmStage = "Application Pending" →
        jsGtI m.offerAge 14 = true →
        detectCRMAnomalies m acts = (some (offerStalledAnomaly m), 0)) := by
  constructor
  · intro env sisRows lead
    exact countP_entry_pair _ _ _
      (fun a ha => detectCRM_source _ _ a ha)
      (fun a ha => detectSIS_source _ a ha)
  · intro m acts h1 h2 h3
    have hEn : (m.crmStage == "Enrolled") = false := by
      rw [h2]; decide
    simp [detectCRMAnomalies, h1, h3, hEn]

/-- C2 witness: the sample lead (offer 20 days old, stage Application
Pending) produces exactly the Offer Stalled anomaly with zero activity
fetches. -/
theorem ruleEval_short_circuit_witness :
    detectCRMAnomalies sampleMerged [] = (some (offerStalledAnomaly sampleMerged), 0) :=
  ruleEval_short_circuit.2 sampleMerged [] (by decide) (by decide) (by decide)

/-- Sample host environment in which no string parses as a date. -/
def failParseEnv : JSEnv :=
  { nowMs := 1760140800000
    parseDate := fun _ => none
    parseFloat := fun _ => none }

/-- C3 counterexample: for a non-empty string the host cannot parse
(JavaScript parses "not-a-date" to an Invalid Date), `daysBetween`
returns `NaN` — modelled as `none` — and not 0: `Math.floor(NaN)` is
`NaN`, since the falsy guard only catches absent or empty input. -/
theorem daysBetween_unparseable_ne_zero :
    daysBetween failParseEnv (some "not-a-date") ≠ some 0 := by decide

/-- C3 (amended): `daysBetween` returns 0 for absent or empty input,
`NaN` for a non-empty input that fails to parse, and otherwise
`floor((now - timestamp) / 1 day)`, so a timestamp exactly 24 hours in
the past yields 1. -/
theorem daysBetween_amended :
    (∀ env : JSEnv, daysBetween env none = some 0) ∧
    (∀ env : JSEnv, daysBetween env (some "") = some 0) ∧
    (∀ (env : JSEnv) (s : String), s ≠ "" → env.parseDate s = none →
        daysBetween env (some s) = none) ∧
    (∀ (env : JSEnv) (s : String) (past : Int), s ≠ "" → env.parseDate s = some past →
        daysBetween env (some s) = some (Int.fdiv (env.nowMs - past) 86400000)) ∧
    (∀ (env : JSEnv) (s : String) (past : Int), s ≠ "" → env.parseDate s = some past →
        env.nowMs - past = 86400000 → daysBetween env (some s) = some 1) := by
  refine ⟨fun env => rfl, fun env => rfl, ?_, ?_, ?_⟩
  · intro env s hs hp
    simp [daysBetween, hs, hp]
  · intro env s past hs hp
    simp [daysBetween, hs, hp]
  · intro env s past hs hp hday
    simp [daysBetween, hs, hp, hday]

/-- C3 witness: in the sample environment a timestamp 24 hours before
now yields 1, and absent input yields 0. -/
theorem daysBetween_amended_witness :
    daysBetween sampleEnv (some "2025-10-10T00:00:00Z") = some 1 ∧
    daysBetween sampleEnv none = some 0 :=
  ⟨daysBetween_amended.2.2.2.2 sampleEnv "2025-10-10T00:00:00Z" 1760054400000
      (by decide) (by decide) (by decide),
    daysBetween_amended.1 sampleEnv⟩

/-- C4: the Offer Stalled anomaly fires exactly when an offer-given
timestamp exists, the stage is not Enrolled, and the offer age exceeds
14 days; when it fires, its severity is High and its explanation embeds
the offer age. -/
theorem offerStalled_rule :
    ∀ (m : Merged) (acts : List Activity),
      ((∃ a, (detectCRMAnomalies m acts).1 = some a ∧ a.type = "Offer Stalled") ↔
        (jsTruthyS m.offerGivenDate = true ∧ m.crmStage ≠ "Enrolled" ∧
          jsGtI m.offerAge 14 = true)) ∧
      ((jsTruthyS m.offerGivenDate = true ∧ m.crmStage ≠ "Enrolled" ∧
          jsGtI m.offerAge 14 = true) →
        (detectCRMAnomalies m acts).1 = some (offerStalledAnomaly m) ∧
        (offerStalledAnomaly m).severity = Severity.High ∧
        (offerStalledAnomaly m).explanation =
          "Offer given " ++ jsIntStr m.offerAge ++ " days ago but student not enrolled.") := by
  intro m acts
  have hfire : (jsTruthyS m.offerGivenDate = true ∧ m.crmStage ≠ "Enrolled" ∧
      jsGtI m.offerAge 14 = true) →
      (detectCRMAnomalies m acts).1 = some (offerStalledAnomaly m) := by
    rintro ⟨h1, h2, h3⟩
    have hEn : (m.crmStage == "Enrolled") = false := beq_eq_false_iff_ne.mpr h2
    simp [detectCRMAnomalies, h1, h3, hEn]
  constructor
  · constructor
    · rintro ⟨a, ha, htype⟩
      by_cases hb : (jsTruthyS m.offerGivenDate && !(m.crmStage == "Enrolled")
          && jsGtI m.offerAge 14) = true
      · simp only [Bool.and_eq_true, Bool.not_eq_true', beq_eq_false_iff_ne] at hb
        exact ⟨hb.1.1, hb.1.2, hb.2⟩
      · rw [Bool.not_eq_true] at hb
        rw [detectCRMAnomalies] at ha
        rw [hb] at ha
        simp at ha
        exact absurd htype (crmRule2_fst_type_ne m acts a ha)
    · intro hcond
      exact ⟨offerStalledAnomaly m, hfire hcond, rfl⟩
  · intro hcond
    exact ⟨hfire hcond, rfl, rfl⟩

/-- C4 witness: the sample lead (20-day offer, Application Pending)
fires Offer Stalled, while the enrolled lead with a 30-day offer does
not. -/
theorem offerStalled_rule_witness :
    (detectCRMAnomalies sampleMerged []).1 = some (offerStalledAnomaly sampleMerged) ∧
    ¬(∃ a, (detectCRMAnomalies enrolledMerged []).1 = some a ∧ a.type = "Offer Stalled") := by
  constructor
  · exact ((offerStalled_rule sampleMerged []).2 (by decide)).1
  · intro hex
    exact absurd ((offerStalled_rule enrolledMerged []).1.mp hex) (by decide)

lemma academic_type_ne (s : String) : "Academic " ++ s ≠ "High Tuition Balance" := by
  intro h
  have hd : ("Academic " ++ s).data = ("High Tuition Balance" : String).data :=
    congrArg String.data h
  rw [String.data_append] at hd
  have hA : ("Academic " : String).data
      = ['A', 'c', 'a', 'd', 'e', 'm', 'i', 'c', ' '] := rfl
  have hH : ("High Tuition Balance" : String).data
      = ['H', 'i', 'g', 'h', ' ', 'T', 'u', 'i', 't', 'i', 'o', 'n', ' ',
         'B', 'a', 'l', 'a', 'n', 'c', 'e'] := rfl
  rw [hA, hH] at hd
  simp at hd

/-- C5: for a joined SIS record whose status is Enrolled or Active with a
tuition balance over 3000 on which neither mismatch rule matched, the
High Tuition Balance anomaly fires with severity Critical when aid is
Denied, else High when the balance exceeds 5000, else Medium; it never
fires when the gate fails. -/
theorem highTuition_rule :
    ∀ m : Merged,
      (m.hasSIS = true → sisRule5Cond m = false → sisRule6Cond m = false →
        (m.enrollmentStatus = some "Enrolled" ∨ m.enrollmentStatus = some "Active") →
        jsGtQ m.tuitionBalance 3000 = true →
        detectSISAnomalies m = some (highTuitionAnomaly m) ∧
        (highTuitionAnomaly m).severity =
          (if m.financialAidStatus = some "Denied" then Severity.Critical
           else if jsGtQ m.tuitionBalance 5000 = true then Severity.High
           else Severity.Medium)) ∧
      ((¬(m.enrollmentStatus = some "Enrolled" ∨ m.enrollmentStatus = some "Active") ∨
          jsGtQ m.tuitionBalance 3000 = false) →
        ∀ a, detectSISAnomalies m = some a → a.type ≠ "High Tuition Balance") := by
  intro m
  constructor
  · intro hsis h5 h6 hstat hbal
    have hgate : ((m.enrollmentStatus == some "Enrolled"
        || m.enrollmentStatus == some "Active") && jsGtQ m.tuitionBalance 3000) = true := by
      rcases hstat with h | h <;> simp [h, hbal]
    refine ⟨by simp [detectSISAnomalies, hsis, h5, h6, hgate], ?_⟩
    by_cases hd : m.financialAidStatus = some "Denied"
    · simp [highTuitionAnomaly, hd]
    · by_cases h5k : jsGtQ m.tuitionBalance 5000 = true
      · simp [highTuitionAnomaly, hd, h5k]
      · rw [Bool.not_eq_true] at h5k
        simp [highTuitionAnomaly, hd, h5k]
  · intro hneg a ha
    have hgate : ((m.enrollmentStatus == some "Enrolled"
        || m.enrollmentStatus == some "Active") && jsGtQ m.tuitionBalance 3000) = false := by
      rcases hneg with h | h
      · push_neg at h
        simp [beq_iff_eq, h.1, h.2]
      · simp [h]
    rw [detectSISAnomalies] at ha
    by_cases hsis : (!m.hasSIS) = true
    · rw [if_pos hsis] at ha
      exact absurd ha (by simp)
    · rw [if_neg hsis] at ha
      by_cases h5 : sisRule5Cond m = true
      · rw [if_pos h5] at ha
        simp at ha
        subst ha
        simp [withdrawnMismatchAnomaly]
      · rw [Bool.not_eq_true] at h5
        rw [h5] at ha
        simp only [Bool.false_eq_true, if_false] at ha
        by_cases h6 : sisRule6Cond m = true
        · rw [if_pos h6] at ha
          simp at ha
          subst ha
          simp [admittedMismatchAnomaly]
        · rw [Bool.not_eq_true] at h6
          rw [h6] at ha
          simp only [Bool.false_eq_true, if_false] at ha
          rw [hgate] at ha
          simp only [Bool.false_eq_true, if_false] at ha
          by_cases h8 : (m.academicStanding == some "Probation"
              || m.academicStanding == some "Suspension") = true
          · rw [if_pos h8] at ha
            simp at ha
            subst ha
            exact academic_type_ne (jsStrOrNull m.academicStanding)
          · rw [Bool.not_eq_true] at h8
            rw [h8] at ha
            simp only [Bool.false_eq_true, if_false] at ha
            by_cases h9 : (m.enrollmentStatus == some "Enrolled" && m.creditsEarned == some 0
                && jsTruthyS m.currentTerm) = true
            · rw [if_pos h9] at ha
              simp at ha
              subst ha
              simp [zeroProgressAnomaly]
            · rw [Bool.not_eq_true] at h9
              rw [h9] at ha
              simp at ha

/-- C5 witness: the enrolled sample student with a 4200 balance and no
aid denial fires High Tuition Balance at severity Medium. -/
theorem highTuition_rule_witness :
    detectSISAnomalies tuitionMerged = some (highTuitionAnomaly tuitionMerged) ∧
    (highTuitionAnomaly tuitionMerged).severity = Severity.Medium := by
  have h := (highTuition_rule tuitionMerged).1 (by decide) (by decide) (by decide)
    (Or.inl (by decide)) (by decide)
  refine ⟨h.1, ?_⟩
  rw [h.2]
  decide

/-! ## Lemmas about the orchestrator environment -/

lemma updateLeadEffects_eq (r : Except String Unit) (pid : String) (a : Anomaly) :
    updateLeadEffects r pid a = [.leadUpdate pid a] := by cases r <;> rfl

lemma logDecisionEffects_eq (r : Except String Unit) (pid : String) (a : Anomaly) :
    logDecisionEffects r pid a = [.logActivity pid a] := by cases r <;> rfl

lemma processLead_oracle_eq (env : ScanEnv) (u l : String → Except String Unit)
    (sisRows : List SISRow) (lead : Lead) :
    processLead { env with updateResult := u, logResult := l } sisRows lead =
      processLead env sisRows lead := by
  simp [processLead, updateLeadEffects_eq, logDecisionEffects_eq]

lemma scanLoop_env_congr (env env' : ScanEnv)
    (h : ∀ r lead, processLead env' r lead = processLead env r lead) :
    ∀ (r : List SISRow) (leads : List Lead),
      scanLoop env' r leads = scanLoop env r leads := by
  intro r leads
  induction leads with
  | nil => rfl
  | cons lead rest ih => simp [scanLoop, h, ih]

/-- C6 counterexample input: the SIS fetch fails while the CRM lead
fetch returns one student who triggers no rule. -/
def plainLead : Lead :=
  { ProspectID := "p9"
    FirstName := none
    LastName := none
    EmailAddress := none
    ProspectStage := some "Fresh"
    LeadType := some "OT_2"
    Source := none
    mx_Stage_Entered_On := none
    mx_Offer_Given_Date := none
    mx_Last_Intelligence_Run := none }

def sisFailEnv : ScanEnv :=
  { js := failParseEnv
    sisFetch := .error "mavis down"
    leadFetch := fun s => if s = "Engagement Initiated" then .ok [plainLead] else .ok []
    activities := fun _ => []
    updateResult := fun _ => .ok ()
    logResult := fun _ => .ok ()
    hasOpenAIKey := false
    summarizerResult := none }

/-- C6 counterexample: an upstream SIS fetch failure does NOT abort the
scan — `fetchAllSISRecords` catches the error and returns an empty map,
so the response is a normal report rather than a 500. -/
theorem sisFailure_does_not_abort :
    (runIntelligence sisFailEnv).outcome.isServerError = false := by decide

/-- C6 (amended): a CRM lead-fetch failure aborts the scan with a 500
carrying the error detail and no effects; a SIS fetch failure is caught
and the scan proceeds exactly as with an empty SIS dataset; per-lead
write-back outcomes never change the response or the attempted
effects. -/
theorem errorHandling_amended :
    (∀ (env : ScanEnv) (e : String), fetchAllStudents env = .error e →
        runIntelligence env = { outcome := .err500 e, effects := [] }) ∧
    (∀ (env : ScanEnv) (e : String), env.sisFetch = .error e →
        runIntelligence env = runIntelligence { env with sisFetch := .ok [] }) ∧
    (∀ (env : ScanEnv) (u l : String → Except String Unit),
        runIntelligence { env with updateResult := u, logResult := l } =
          runIntelligence env) := by
  refine ⟨?_, ?_, ?_⟩
  · intro env e hf
    simp [runIntelligence, hf]
  · intro env e hs
    obtain ⟨js, sf, lf, act, ur, lr, key, sr⟩ := env
    simp only at hs
    subst hs
    have hfetch : fetchAllStudents
        (ScanEnv.mk js (.error e) lf act ur lr key sr) =
        fetchAllStudents (ScanEnv.mk js (.ok []) lf act ur lr key sr) := rfl
    have hrows : sisRowsOf (ScanEnv.mk js (.error e) lf act ur lr key sr) =
        sisRowsOf (ScanEnv.mk js (.ok []) lf act ur lr key sr) := rfl
    have hloop := scanLoop_env_congr
      (ScanEnv.mk js (.ok []) lf act ur lr key sr)
      (ScanEnv.mk js (.error e) lf act ur lr key sr)
      (fun _ _ => rfl)
    simp only [runIntelligence, hfetch, hrows, hloop]
  · intro env u l
    obtain ⟨js, sf, lf, act, ur, lr, key, sr⟩ := env
    have hfetch : fetchAllStudents (ScanEnv.mk js sf lf act u l key sr) =
        fetchAllStudents (ScanEnv.mk js sf lf act ur lr key sr) := rfl
    have hrows : sisRowsOf (ScanEnv.mk js sf lf act u l key sr) =
        sisRowsOf (ScanEnv.mk js sf lf act ur lr key sr) := rfl
    have hloop := scanLoop_env_congr
      (ScanEnv.mk js sf lf act ur lr key sr)
      (ScanEnv.mk js sf lf act u l key sr)
      (fun r lead => processLead_oracle_eq (ScanEnv.mk js sf lf act ur lr key sr) u l r lead)
    simp only [runIntelligence, hfetch, hrows, hloop]

/-- C6 witness: a failing CRM lead fetch yields the 500 with its detail
and no attempted effects. -/
def leadFailEnv : ScanEnv :=
  { sisFailEnv with sisFetch := .ok [], leadFetch := fun _ => .error "crm down" }

theorem errorHandling_amended_witness :
    runIntelligence leadFailEnv = { outcome := .err500 "crm down", effects := [] } :=
  errorHandling_amended.1 leadFailEnv "crm down" rfl

/-- C7: rule evaluation is a pure function of the lead record, activity
list, joined SIS record and clock: the per-lead result and the whole
scan output are invariant under the last-run timestamp that each
write-back overwrites. -/
theorem ruleEval_pure :
    (∀ (env : ScanEnv) (sisRows : List SISRow) (lead : Lead) (t : Option String),
        processLead env sisRows { lead with mx_Last_Intelligence_Run := t } =
          processLead env sisRows lead) ∧
    (∀ (env : ScanEnv) (sisRows : List SISRow) (leads : List Lead) (t : Option String),
        scanLoop env sisRows (leads.map fun lead =>
            { lead with mx_Last_Intelligence_Run := t }) =
          scanLoop env sisRows leads) := by
  have hstep : ∀ (env : ScanEnv) (sisRows : List SISRow) (lead : Lead) (t : Option String),
      processLead env sisRows { lead with mx_Last_Intelligence_Run := t } =
        processLead env sisRows lead := by
    intro env sisRows lead t
    cases lead
    rfl
  refine ⟨hstep, ?_⟩
  intro env sisRows leads t
  induction leads with
  | nil => rfl
  | cons lead rest ih => simp [scanLoop, hstep, ih]

/-- C8: when the lead fetch returns no students, the response reports
zero leads scanned and zero anomalies, no write-back is attempted and
the summarizer is never called. -/
theorem emptyScan_report :
    ∀ env : ScanEnv, fetchAllStudents env = .ok [] →
      runIntelligence env =
        { outcome := .ok
            { message := "Hawke scanned — no student leads found"
              total_leads_scanned := 0
              anomalies_detected := 0
              entries := []
              ai_analysis := none }
          effects := [] } := by
  intro env h
  simp [runIntelligence, h]

/-- Environment whose lead fetch finds no students (summarizer key
present, showing it is still not called). -/
def emptyScanEnv : ScanEnv :=
  { js := sampleEnv
    sisFetch := .ok []
    leadFetch := fun _ => .ok []
    activities := fun _ => []
    updateResult := fun _ => .ok ()
    logResult := fun _ => .ok ()
    hasOpenAIKey := true
    summarizerResult := some "analysis" }

/-- C8 witness: the concrete empty scan returns the zero report with no
effects. -/
theorem emptyScan_report_witness :
    runIntelligence emptyScanEnv =
      { outcome := .ok
          { message := "Hawke scanned — no student leads found"
            total_leads_scanned := 0
            anomalies_detected := 0
            entries := []
            ai_analysis := none }
        effects := [] } :=
  emptyScan_report emptyScanEnv rfl

lemma detectCRM_severity (m : Merged) (acts : List Activity) (a : Anomaly)
    (h : (detectCRMAnomalies m acts).1 = some a) :
    a.severity = Severity.High ∨ a.severity = Severity.Medium := by
  rcases detectCRM_fst_type m acts a h with h' | h' | h' | h' <;> subst h' <;>
    simp [offerStalledAnomaly, noCounselorAnomaly, pendingStalledAnomaly, highIntentAnomaly]

/-- C10: the CRM pipeline only produces High or Medium severities, never
Critical, so a High SIS anomaly is always selected as primary over
whatever the CRM pipeline produced. -/
theorem crm_severity_bound :
    (∀ (m : Merged) (acts : List Activity) (a : Anomaly),
        (detectCRMAnomalies m acts).1 = some a →
        a.severity = Severity.High ∨ a.severity = Severity.Medium) ∧
    (∀ (m : Merged) (acts : List Activity) (s : Anomaly), s.severity = Severity.High →
        primaryAnomaly (detectCRMAnomalies m acts).1 (some s) = some s) := by
  constructor
  · exact fun m acts a h => detectCRM_severity m acts a h
  · intro m acts s hs
    cases hc : (detectCRMAnomalies m acts).1 with
    | none => simp [primaryAnomaly, severityOpt, hs]
    | some c =>
      rcases detectCRM_severity m acts c hc with h' | h' <;>
        simp [primaryAnomaly, severityOpt, hs, h']

/-- C10 witness: with the sample lead (whose CRM pipeline fires the High
Offer Stalled anomaly), a High SIS anomaly is primary. -/
theorem crm_severity_bound_witness :
    primaryAnomaly (detectCRMAnomalies sampleMerged []).1
        (some (admittedMismatchAnomaly sampleMerged)) =
      some (admittedMismatchAnomaly sampleMerged) :=
  crm_severity_bound.2 sampleMerged [] _ rfl

end Hawke

namespace HawkeV0

/-- C9: `/write-decision` responds 400 with a descriptive error and posts
nothing when `leadId` or `decision` is missing; when both are present, a
decision activity is posted for the given lead id. -/
theorem writeDecision_validation :
    (∀ (body : DecisionBody) (post : Except String Unit),
        body.leadId = none ∨ body.decision = none →
        writeDecision body post =
          (WDResponse.badRequest "leadId and decision are required", [])) ∧
    (∀ (body : DecisionBody) (post : Except String Unit) (pid dec : String),
        body.leadId = some pid → pid ≠ "" → body.decision = some dec → dec ≠ "" →
        ∃ req, (writeDecision body post).2 = [req] ∧
          req.relatedProspectId = pid ∧
          req.note = "Agent Hawke Decision: " ++ dec) := by
  constructor
  · intro body post h
    rcases h with h | h <;> simp [writeDecision, Hawke.jsTruthyS, h]
  · intro body post pid dec hpid hpidne hdec hdecne
    have h1 : Hawke.jsTruthyS body.leadId = true := by
      rw [hpid]
      simp [Hawke.jsTruthyS, hpidne]
    have h2 : Hawke.jsTruthyS body.decision = true := by
      rw [hdec]
      simp [Hawke.jsTruthyS, hdecne]
    refine ⟨{ relatedProspectId := body.leadId.getD ""
              note := "Agent Hawke Decision: " ++ body.decision.getD ""
              riskLevel := (Hawke.jsOrStr body.riskLevel).getD "Unknown"
              findings := body.findings.getD "" }, ?_, ?_, ?_⟩
    · cases post <;> simp [writeDecision, h1, h2]
    · simp [hpid]
    · simp [hdec]

/-- A request body missing its `decision` field. -/
def missingDecisionBody : DecisionBody :=
  { leadId := some "p1"
    decision := none
    riskLevel := none
    findings := none }

/-- A complete request body. -/
def fullDecisionBody : DecisionBody :=
  { leadId := some "p1"
    decision := some "Escalate"
    riskLevel := some "High"
    findings := some "stalled offer" }

/-- C9 witness: a body missing `decision` is rejected with nothing
posted, and a complete body posts the activity for its lead id. -/
theorem writeDecision_validation_witness :
    writeDecision missingDecisionBody (.ok ()) =
      (WDResponse.badRequest "leadId and decision are required", []) ∧
    ∃ req, (writeDecision fullDecisionBody (.ok ())).2 = [req] ∧
      req.relatedProspectId = "p1" ∧
      req.note = "Agent Hawke Decision: " ++ "Escalate" :=
  ⟨writeDecision_validation.1 _ (.ok ()) (Or.inr rfl),
    writeDecision_validation.2 _ (.ok ()) "p1" "Escalate" rfl (by decide) rfl (by decide)⟩

end HawkeV0
